import Mathlib

/-!
Verification of the fuzz harness in src/testing-tools/ttf-fuzz/src/fuzz-name.rs.

The harness registers one closure with the afl fuzzing engine.  On each
engine-provided byte buffer the closure attempts
ttf_parser Font construction via from_data(data, 0); when construction
succeeds it calls family_name(), post_script_name() and names().count() in
that order, discarding every result, and returns unit; when construction
fails it returns unit at once.

The font library is an external collaborator of the harness, consumed only
through the four operations above, so it is embedded as an abstract
interface; the closure body is embedded as a pure function over that
interface, instrumented with the list of library calls it performs.  A
second interface makes abnormal termination of a library call explicit, to
reason about panic propagation through the closure body.
-/

namespace TtfFuzz

/-- Bytes of the fuzz input buffer. -/
abbrev Byte := Fin 256

/-- The fuzz input buffer: an immutable, arbitrary-length sequence of bytes
handed to the closure by the fuzzing engine for a single trial. -/
abbrev ByteSeq := List Byte

/-- One call made by the fuzz closure on the font library, in the order the
calls appear in fuzz-name.rs: the construction call with its buffer and
collection index, and the three read accessors (the last one counts the
name-record enumeration). -/
inductive Call : Type where
  | from_data (data : ByteSeq) (index : Nat)
  | family_name
  | post_script_name
  | names_count
deriving DecidableEq, Repr

/-- Discriminator for the construction call in a trace. -/
def Call.isConstruction : Call → Bool
  | Call.from_data _ _ => true
  | _ => false

/-- Discriminator for accessor calls in a trace. -/
def Call.isAccessor : Call → Bool
  | Call.from_data _ _ => false
  | _ => true

/-- The font library interface as the harness uses it, with the signatures of
the four public operations invoked in fuzz-name.rs: construction from raw
bytes at a collection index, which either yields a font handle of type F or
reports a recognizable failure of type E; the two optional-string name
accessors; and the name-record enumerator, embedded as the list of records of
type N that it yields, so that counting it is taking the list length.  This
interface describes executions in which every library call returns normally;
abnormal termination is made explicit by FontLibraryE below. -/
structure FontLibrary (F E N : Type) : Type where
  from_data : ByteSeq → Nat → Except E F
  family_name : F → Option String
  post_script_name : F → Option String
  names : F → List N

/-- Shallow embedding of the closure body registered with the fuzzing engine
in fuzz-name.rs, instrumented with the list of library calls it makes.  The
body tries Font construction from the buffer at collection index 0; if it
fails, the trial ends at once; if it succeeds, the body calls the family-name
accessor, the PostScript-name accessor and the counting enumeration of the
name records, in that order, binding each result to a discarded wildcard, and
returns unit. -/
def fuzz_name_callback {F E N : Type} (L : FontLibrary F E N)
    (data : ByteSeq) : List Call × Unit :=
  match L.from_data data 0 with
  | Except.ok font =>
      let _family := L.family_name font
      let _post := L.post_script_name font
      let _count := (L.names font).length
      ([Call.from_data data 0, Call.family_name, Call.post_script_name,
        Call.names_count], ())
  | Except.error _ => ([Call.from_data data 0], ())

/-- The engine loop around the closure: the fuzzing engine dispatches each
generated buffer to the closure in turn, one trial at a time.  The closure
captures no mutable state, so the loop is the pointwise application of the
closure to the dispatched inputs. -/
def fuzz_loop {F E N : Type} (L : FontLibrary F E N)
    (inputs : List ByteSeq) : List (List Call × Unit) :=
  inputs.map (fun data => fuzz_name_callback L data)

/-- One trial as seen from the engine: the engine lends the closure the input
buffer, and the process could in principle carry a persistent store of any
type S across trials.  The closure in fuzz-name.rs takes the buffer by shared
reference and mentions no global, so its embedding leaves the buffer and any
ambient store untouched and produces only the unit result of the closure: the
trial hands back the buffer unchanged, the store unchanged, and retains
neither the buffer nor the font handle. -/
def fuzz_name_trial {F E N S : Type} (L : FontLibrary F E N)
    (data : ByteSeq) (store : S) : ByteSeq × S × (List Call × Unit) :=
  (data, store, fuzz_name_callback L data)

/-- An abnormal condition (a panic, abort or trap) raised inside a library
call, identified by a numeric code. -/
structure Panic : Type where
  code : Nat
deriving DecidableEq, Repr

/-- The font library interface with abnormal termination made explicit: each
of the four operations either returns a value as in FontLibrary or raises a
Panic that the caller never observes as a value. -/
structure FontLibraryE (F E N : Type) : Type where
  from_data : ByteSeq → Nat → Except Panic (Except E F)
  family_name : F → Except Panic (Option String)
  post_script_name : F → Except Panic (Option String)
  names : F → Except Panic (List N)

/-- The closure body of fuzz-name.rs under the panic-explicit library
interface.  The body contains no catch, retry or logging construct, so a
panic raised by any of the four library calls aborts the rest of the body and
becomes the outcome of the whole closure, unmodified.  The first component
records the calls made up to and including the aborting one. -/
def fuzz_name_callbackE {F E N : Type} (L : FontLibraryE F E N)
    (data : ByteSeq) : List Call × Except Panic Unit :=
  match L.from_data data 0 with
  | Except.error p => ([Call.from_data data 0], Except.error p)
  | Except.ok (Except.error _) => ([Call.from_data data 0], Except.ok ())
  | Except.ok (Except.ok font) =>
      match L.family_name font with
      | Except.error p =>
          ([Call.from_data data 0, Call.family_name], Except.error p)
      | Except.ok _ =>
          match L.post_script_name font with
          | Except.error p =>
              ([Call.from_data data 0, Call.family_name,
                Call.post_script_name], Except.error p)
          | Except.ok _ =>
              match L.names font with
              | Except.error p =>
                  ([Call.from_data data 0, Call.family_name,
                    Call.post_script_name, Call.names_count], Except.error p)
              | Except.ok ns =>
                  let _count := ns.length
                  ([Call.from_data data 0, Call.family_name,
                    Call.post_script_name, Call.names_count], Except.ok ())

/-- Modelled from the spec: the behavior of the construction function of the
font library (ttf_parser Font from_data), which belongs to this repository
but is not among the harness sources under src.  Per the spec the library
construction function fails with a recognizable not-a-font outcome on inputs
it rejects, and the spec fixes the empty buffer as rejected: scenario 1 reads
that on the empty byte sequence font construction fails.  A library satisfies
this predicate when its construction function rejects the empty buffer at
collection index 0. -/
def from_data_rejects_empty {F E N : Type} (L : FontLibrary F E N) : Prop :=
  ∃ e, L.from_data [] 0 = Except.error e

/-- A concrete library instance for witnesses: construction succeeds on every
buffer, both name accessors report the name as absent, and the name table
yields three records. -/
def demoOkLib : FontLibrary Unit Unit Unit :=
  FontLibrary.mk (fun _ _ => Except.ok ()) (fun _ => none)
    (fun _ => none) (fun _ => [(), (), ()])

/-- A concrete library instance for witnesses that differs from demoOkLib
only in the accessors: construction is the same function, but the names are
present and the name table yields one record. -/
def demoOkLib2 : FontLibrary Unit Unit Unit :=
  FontLibrary.mk (fun _ _ => Except.ok ()) (fun _ => some "Demo")
    (fun _ => some "Demo-PS") (fun _ => [()])

/-- A concrete library instance for witnesses: construction rejects every
buffer. -/
def demoErrLib : FontLibrary Unit Unit Unit :=
  FontLibrary.mk (fun _ _ => Except.error ()) (fun _ => none)
    (fun _ => none) (fun _ => [])

/-- A concrete panic-explicit library instance for witnesses: construction
itself panics on every buffer. -/
def demoPanicLib : FontLibraryE Unit Unit Unit :=
  FontLibraryE.mk (fun _ _ => Except.error (Panic.mk 7))
    (fun _ => Except.ok none) (fun _ => Except.ok none)
    (fun _ => Except.ok [])

/-- A concrete panic-explicit library instance for witnesses: construction
returns normally and reports every buffer as not a font. -/
def demoRejectLibE : FontLibraryE Unit Unit Unit :=
  FontLibraryE.mk (fun _ _ => Except.ok (Except.error ()))
    (fun _ => Except.ok none) (fun _ => Except.ok none)
    (fun _ => Except.ok [])

/-- C1: for every input byte sequence on which font construction succeeds,
the closure invokes exactly the construction call followed by the three
accessors — family-name retrieval, then PostScript-name retrieval, then the
counting enumeration of the name-table records — in that order, and performs
no other operation on the font. -/
theorem C1_success_calls_exactly_three_accessors {F E N : Type}
    (L : FontLibrary F E N) (data : ByteSeq) (font : F)
    (h : L.from_data data 0 = Except.ok font) :
    (fuzz_name_callback L data).1 =
      [Call.from_data data 0, Call.family_name, Call.post_script_name,
        Call.names_count] := by
  unfold fuzz_name_callback
  rw [h]

/-- C1 witness: the claim instantiated at the demo library and the empty
buffer. -/
theorem C1_witness :
    demoOkLib.from_data [] 0 = Except.ok () ∧
    (fuzz_name_callback demoOkLib []).1 =
      [Call.from_data [] 0, Call.family_name, Call.post_script_name,
        Call.names_count] :=
  And.intro rfl (C1_success_calls_exactly_three_accessors demoOkLib [] () rfl)

/-- C2: for every input byte sequence on which font construction fails (the
library reports a not-a-font outcome without panicking), the closure ends the
trial at once: the trace holds the construction call only, no accessor call,
and the outcome is a normal unit return, with no error raised, returned or
surfaced. -/
theorem C2_failure_ends_trial_silently {F E N : Type}
    (L : FontLibraryE F E N) (data : ByteSeq) (e : E)
    (h : L.from_data data 0 = Except.ok (Except.error e)) :
    fuzz_name_callbackE L data =
      ([Call.from_data data 0], Except.ok ()) := by
  unfold fuzz_name_callbackE
  rw [h]

/-- C2 witness: the claim instantiated at the rejecting demo library and the
empty buffer. -/
theorem C2_witness :
    demoRejectLibE.from_data [] 0 = Except.ok (Except.error ()) ∧
    fuzz_name_callbackE demoRejectLibE [] =
      ([Call.from_data [] 0], Except.ok ()) :=
  And.intro rfl (C2_failure_ends_trial_silently demoRejectLibE [] () rfl)

/-- C3: for every input byte sequence, every construction call the closure
makes passes the buffer it was handed and collection index 0; no other
collection index is ever passed to the construction function. -/
theorem C3_collection_index_zero {F E N : Type}
    (L : FontLibrary F E N) (data d : ByteSeq) (i : Nat)
    (h : Call.from_data d i ∈ (fuzz_name_callback L data).1) :
    d = data ∧ i = 0 := by
  unfold fuzz_name_callback at h
  cases hfd : L.from_data data 0 <;> rw [hfd] at h <;> simp at h <;>
    exact h

/-- C3 witness: the claim instantiated at the demo library and the empty
buffer. -/
theorem C3_witness :
    Call.from_data [] 0 ∈ (fuzz_name_callback demoOkLib []).1 ∧
    (([] : ByteSeq) = [] ∧ (0 : Nat) = 0) :=
  And.intro (by decide)
    (C3_collection_index_zero demoOkLib [] [] 0 (by decide))

/-- C4: for every input byte sequence, the closure returns unit and every
accessor result is discarded: two libraries with the same construction
function but arbitrary, possibly different accessors drive the closure to the
same observable result, so no accessor result influences any observable
output of the closure. -/
theorem C4_results_discarded {F E N : Type}
    (L L2 : FontLibrary F E N) (data : ByteSeq)
    (h : L2.from_data = L.from_data) :
    (fuzz_name_callback L data).2 = () ∧
    fuzz_name_callback L2 data = fuzz_name_callback L data := by
  refine And.intro rfl ?_
  unfold fuzz_name_callback
  rw [h]

/-- C4 witness: the claim instantiated at the two demo libraries that share a
construction function but differ in all three accessors. -/
theorem C4_witness :
    demoOkLib2.from_data = demoOkLib.from_data ∧
    ((fuzz_name_callback demoOkLib []).2 = () ∧
      fuzz_name_callback demoOkLib2 [] = fuzz_name_callback demoOkLib []) :=
  And.intro rfl (C4_results_discarded demoOkLib demoOkLib2 [] rfl)

/-- C5: the closure catches, retries and logs nothing: a panic raised by any
of the four library calls — construction, family-name retrieval,
PostScript-name retrieval, or the name-record enumeration — aborts the rest
of the body and becomes the outcome of the whole closure, unmodified. -/
theorem C5_panics_propagate_unmodified {F E N : Type}
    (L : FontLibraryE F E N) (data : ByteSeq) :
    (∀ p, L.from_data data 0 = Except.error p →
      (fuzz_name_callbackE L data).2 = Except.error p) ∧
    (∀ font p, L.from_data data 0 = Except.ok (Except.ok font) →
      L.family_name font = Except.error p →
      (fuzz_name_callbackE L data).2 = Except.error p) ∧
    (∀ font p, L.from_data data 0 = Except.ok (Except.ok font) →
      (∃ s, L.family_name font = Except.ok s) →
      L.post_script_name font = Except.error p →
      (fuzz_name_callbackE L data).2 = Except.error p) ∧
    (∀ font p, L.from_data data 0 = Except.ok (Except.ok font) →
      (∃ s, L.family_name font = Except.ok s) →
      (∃ s, L.post_script_name font = Except.ok s) →
      L.names font = Except.error p →
      (fuzz_name_callbackE L data).2 = Except.error p) := by
  refine ⟨?_, ?_, ?_, ?_⟩
  · intro p h
    unfold fuzz_name_callbackE
    rw [h]
  · intro font p h hfam
    unfold fuzz_name_callbackE
    rw [h]
    dsimp only
    rw [hfam]
  · intro font p h hfam hpost
    obtain ⟨s, hs⟩ := hfam
    unfold fuzz_name_callbackE
    rw [h]
    dsimp only
    rw [hs]
    dsimp only
    rw [hpost]
  · intro font p h hfam hpost hnames
    obtain ⟨s, hs⟩ := hfam
    obtain ⟨t, ht⟩ := hpost
    unfold fuzz_name_callbackE
    rw [h]
    dsimp only
    rw [hs]
    dsimp only
    rw [ht]
    dsimp only
    rw [hnames]

/-- C5 witness: the claim instantiated at the demo library whose construction
call panics with code 7, on the empty buffer. -/
theorem C5_witness :
    demoPanicLib.from_data [] 0 = Except.error (Panic.mk 7) ∧
    (fuzz_name_callbackE demoPanicLib []).2 = Except.error (Panic.mk 7) :=
  And.intro rfl
    ((C5_panics_propagate_unmodified demoPanicLib []).1 (Panic.mk 7) rfl)

/-- C6: the closure is deterministic and stateless across trials: the outcome
of the trial on a buffer B is the same whatever trials preceded it in the
engine loop, and running the loop on the same buffer twice yields two
identical outcomes, so no state produced in one invocation is readable by a
later one. -/
theorem C6_trials_independent_and_deterministic {F E N : Type}
    (L : FontLibrary F E N) (B : ByteSeq) (pre1 pre2 : List ByteSeq) :
    (fuzz_loop L (pre1 ++ [B])).getLast? =
      (fuzz_loop L (pre2 ++ [B])).getLast? ∧
    fuzz_loop L [B, B] =
      [fuzz_name_callback L B, fuzz_name_callback L B] := by
  refine And.intro ?_ rfl
  unfold fuzz_loop
  simp [List.getLast?_concat]

/-- C7: on the empty byte sequence the spec-modelled library rejects the
buffer, so the trial ends with the construction call only, no accessor call
and a normal unit return; moreover every other rejected buffer takes the same
path, producing the same one-call trace shape, so the closure does not
special-case the buffer length. -/
theorem C7_empty_input_rejected_like_any_other {F E N : Type}
    (L : FontLibrary F E N) (hL : from_data_rejects_empty L) :
    fuzz_name_callback L [] = ([Call.from_data [] 0], ()) ∧
    (∀ data e, L.from_data data 0 = Except.error e →
      fuzz_name_callback L data = ([Call.from_data data 0], ())) := by
  constructor
  · obtain ⟨e, he⟩ := hL
    unfold fuzz_name_callback
    rw [he]
  · intro data e he
    unfold fuzz_name_callback
    rw [he]

/-- C7 witness: the claim instantiated at the demo library that rejects every
buffer. -/
theorem C7_witness :
    from_data_rejects_empty demoErrLib ∧
    (fuzz_name_callback demoErrLib [] = ([Call.from_data [] 0], ()) ∧
      (∀ data e, demoErrLib.from_data data 0 = Except.error e →
        fuzz_name_callback demoErrLib data = ([Call.from_data data 0], ()))) :=
  And.intro (Exists.intro () rfl)
    (C7_empty_input_rejected_like_any_other demoErrLib (Exists.intro () rfl))

/-- C8: a trial never modifies the input buffer and retains neither the
buffer nor the font handle past the invocation: the buffer and the ambient
store come back unchanged and the only produced value is the unit result of
the closure, on the success path and on the early-return path when
construction fails alike. -/
theorem C8_no_mutation_no_retention {F E N S : Type}
    (L : FontLibrary F E N) (data : ByteSeq) (store : S) :
    (fuzz_name_trial L data store).1 = data ∧
    (fuzz_name_trial L data store).2.1 = store ∧
    (∀ font, L.from_data data 0 = Except.ok font →
      fuzz_name_trial L data store =
        (data, store, ([Call.from_data data 0, Call.family_name,
          Call.post_script_name, Call.names_count], ()))) ∧
    (∀ e, L.from_data data 0 = Except.error e →
      fuzz_name_trial L data store =
        (data, store, ([Call.from_data data 0], ()))) := by
  refine ⟨rfl, rfl, ?_, ?_⟩
  · intro font h
    unfold fuzz_name_trial fuzz_name_callback
    rw [h]
  · intro e h
    unfold fuzz_name_trial fuzz_name_callback
    rw [h]

/-- C8 witness: the claim instantiated at the demo library, the empty buffer
and a numeric store. -/
theorem C8_witness :
    demoOkLib.from_data [] 0 = Except.ok () ∧
    fuzz_name_trial demoOkLib [] (5 : Nat) =
      ([], 5, ([Call.from_data [] 0, Call.family_name,
        Call.post_script_name, Call.names_count], ())) :=
  And.intro rfl
    ((C8_no_mutation_no_retention demoOkLib [] (5 : Nat)).2.2.1 () rfl)

/-- C9: the closure body is straight-line code with no loop or recursion:
given that the embedded library operations are total functions, one
invocation terminates with a trace holding at most one construction call and
at most three accessor calls. -/
theorem C9_bounded_calls {F E N : Type}
    (L : FontLibrary F E N) (data : ByteSeq) :
    ((fuzz_name_callback L data).1.countP Call.isConstruction) ≤ 1 ∧
    ((fuzz_name_callback L data).1.countP Call.isAccessor) ≤ 3 := by
  unfold fuzz_name_callback
  cases hfd : L.from_data data 0 <;>
    simp [List.countP_cons, Call.isConstruction, Call.isAccessor]

/-- C10: accessor results do not influence control flow: when construction
succeeds and the family-name accessor returns the absent value, the
PostScript-name accessor and the counting name-record enumeration are still
called. -/
theorem C10_accessors_unconditional {F E N : Type}
    (L : FontLibrary F E N) (data : ByteSeq) (font : F)
    (h : L.from_data data 0 = Except.ok font)
    (hfam : L.family_name font = none) :
    Call.post_script_name ∈ (fuzz_name_callback L data).1 ∧
    Call.names_count ∈ (fuzz_name_callback L data).1 := by
  unfold fuzz_name_callback
  rw [h]
  exact ⟨by simp, by simp⟩

/-- C10 witness: the claim instantiated at the demo library, whose
family-name accessor returns the absent value, on the empty buffer. -/
theorem C10_witness :
    demoOkLib.from_data [] 0 = Except.ok () ∧
    demoOkLib.family_name () = none ∧
    (Call.post_script_name ∈ (fuzz_name_callback demoOkLib []).1 ∧
      Call.names_count ∈ (fuzz_name_callback demoOkLib []).1) :=
  ⟨rfl, rfl, C10_accessors_unconditional demoOkLib [] () rfl rfl⟩

end TtfFuzz
